import Mathlib

/-!
Shallow embedding of the `xyzvec` Rust crate (src/xy.rs, src/xyz.rs, src/lib.rs):
generic 2D and 3D vector types over a scalar type `T`, together with the
operations the specification claims are about. Each definition is translated
directly from the corresponding Rust item; comments give the source location.
-/

/-- Embedding of `XYVec<T>` (src/xy.rs): a struct holding `inner: [T; 2]`.
The two array slots are the fields `i0` (`inner[0]`) and `i1` (`inner[1]`). -/
structure XYVec (T : Type) where
  i0 : T
  i1 : T
deriving DecidableEq

/-- `XYVec::new(inner: [T; 2])` (src/xy.rs line 15). -/
def XYVec.new {T : Type} (a b : T) : XYVec T := ⟨a, b⟩

/-- `XYVec::x` (src/xy.rs line 20): `self.inner[0]`. -/
def XYVec.x {T : Type} (v : XYVec T) : T := v.i0

/-- `XYVec::y` (src/xy.rs line 25): `self.inner[1]`. -/
def XYVec.y {T : Type} (v : XYVec T) : T := v.i1

/-- `XYVec::scale_by` (src/xy.rs lines 38-42). -/
def XYVec.scale_by {T : Type} [Mul T] (v : XYVec T) (d : T) : XYVec T :=
  XYVec.new (v.x * d) (v.y * d)

/-- `XYVec::l1_norm` (src/xy.rs lines 66-68): `self.x() + self.y()`. -/
def XYVec.l1_norm {T : Type} [Add T] (v : XYVec T) : T := v.x + v.y

/-- `XYVec::sum` (src/xy.rs lines 142-144): `self.x() + self.y()`. -/
def XYVec.sum {T : Type} [Add T] (v : XYVec T) : T := v.x + v.y

/-- `XYVec::l2_norm_sqd` (src/xy.rs lines 77-79). -/
def XYVec.l2_norm_sqd {T : Type} [Mul T] [Add T] (v : XYVec T) : T :=
  v.x * v.x + v.y * v.y

/-- `XYVec::dot_prod` (src/xy.rs lines 113-115). -/
def XYVec.dot_prod {T : Type} [Mul T] [Add T] (v other : XYVec T) : T :=
  v.x * other.x + v.y * other.y

/-- `XYVec::cross_prod` (src/xy.rs lines 89-91): the 2D pseudoscalar. -/
def XYVec.cross_prod {T : Type} [Mul T] [Sub T] (v other : XYVec T) : T :=
  v.x * other.y - v.y * other.x

/-- `XYVec::scalar_projected_on` (src/xy.rs lines 169-173):
`dot_ab / dot_bb` with `dot_ab = self.dot_prod(other)`, `dot_bb = other.dot_prod(other)`. -/
def XYVec.scalar_projected_on {T : Type} [Mul T] [Add T] [Div T]
    (v other : XYVec T) : T :=
  let dot_ab := v.dot_prod other
  let dot_bb := other.dot_prod other
  dot_ab / dot_bb

/-- `impl Add for XYVec<T>` (src/xy.rs lines 192-200). -/
def XYVec.add {T : Type} [Add T] (v other : XYVec T) : XYVec T :=
  XYVec.new (v.x + other.x) (v.y + other.y)

/-- `impl AddAssign for XYVec<T>` (src/xy.rs lines 202-207): the in-place
`self.inner[0] += other.x(); self.inner[1] += other.y()` modelled by explicit
state passing — the function consumes the receiver and returns its new value;
`other` is taken by value (`Copy`) and nothing else is touched. -/
def XYVec.add_assign {T : Type} [Add T] (self other : XYVec T) : XYVec T :=
  ⟨self.i0 + other.x, self.i1 + other.y⟩

/-- `XYVec::iter` (src/xy.rs lines 156-158): yields the two components in
array order, modelled as the list of elements the iterator produces. -/
def XYVec.iter {T : Type} (v : XYVec T) : List T := [v.i0, v.i1]

/-- `impl FromIterator<T> for XYVec<T>` (src/xy.rs lines 316-323):
`x = i.next().unwrap(); y = i.next().unwrap()`. The two `unwrap` calls panic
when the iterator is exhausted; panicking is modelled as `none`. Elements after
the second are never requested. -/
def XYVec.from_iter {T : Type} (l : List T) : Option (XYVec T) :=
  match l with
  | x :: y :: _ => some (XYVec.new x y)
  | _ => none

/-- `XYVec::<f32>::rotated_by` / `XYVec::<f64>::rotated_by` both start from
`c = theta.cos(); s = theta.sin()`; the scalar type's cosine and sine are
passed as the functions `cosF`, `sinF`. The f32 body (src/xy.rs lines 255-262)
is `x = (self.x() * c - self.y() * s) - self.x()` and
`y = self.x() * s + self.y() * c - self.y()`. -/
def XYVec.rotated_by_f32 {T : Type} [Mul T] [Add T] [Sub T]
    (cosF sinF : T → T) (v : XYVec T) (theta : T) : XYVec T :=
  let c := cosF theta
  let s := sinF theta
  let x := (v.x * c - v.y * s) - v.x
  let y := v.x * s + v.y * c - v.y
  XYVec.new x y

/-- The f64 body (src/xy.rs lines 274-281): `x = self.x() * c - self.y() * s`,
`y = self.x() * s + self.y() * c`. -/
def XYVec.rotated_by_f64 {T : Type} [Mul T] [Add T] [Sub T]
    (cosF sinF : T → T) (v : XYVec T) (theta : T) : XYVec T :=
  let c := cosF theta
  let s := sinF theta
  let x := v.x * c - v.y * s
  let y := v.x * s + v.y * c
  XYVec.new x y

/-- Embedding of `XYZVec<T>` (src/xyz.rs): a struct holding `inner: [T; 3]`. -/
structure XYZVec (T : Type) where
  i0 : T
  i1 : T
  i2 : T
deriving DecidableEq

/-- `XYZVec::new(inner: [T; 3])` (src/xyz.rs line 14). -/
def XYZVec.new {T : Type} (a b c : T) : XYZVec T := ⟨a, b, c⟩

/-- `XYZVec::x` (src/xyz.rs line 19). -/
def XYZVec.x {T : Type} (v : XYZVec T) : T := v.i0

/-- `XYZVec::y` (src/xyz.rs line 24). -/
def XYZVec.y {T : Type} (v : XYZVec T) : T := v.i1

/-- `XYZVec::z` (src/xyz.rs line 29). -/
def XYZVec.z {T : Type} (v : XYZVec T) : T := v.i2

/-- `XYZVec::l1_norm` (src/xyz.rs lines 93-95): `x + y + z`. -/
def XYZVec.l1_norm {T : Type} [Add T] (v : XYZVec T) : T := v.x + v.y + v.z

/-- `XYZVec::sum` (src/xyz.rs lines 159-161): `x + y + z`. -/
def XYZVec.sum {T : Type} [Add T] (v : XYZVec T) : T := v.x + v.y + v.z

/-- `XYZVec::l2_norm_sqd` (src/xyz.rs lines 104-106). -/
def XYZVec.l2_norm_sqd {T : Type} [Mul T] [Add T] (v : XYZVec T) : T :=
  v.x * v.x + v.y * v.y + v.z * v.z

/-- `XYZVec::dot_prod` (src/xyz.rs lines 134-136). -/
def XYZVec.dot_prod {T : Type} [Mul T] [Add T] (v other : XYZVec T) : T :=
  v.x * other.x + v.y * other.y + v.z * other.z

/-- `XYZVec::cross_prod` (src/xyz.rs lines 119-124), exactly as written there:
`x = self.x()*other.y() - self.y()*other.x()`,
`y = self.y()*other.z() - self.z()*other.y()`,
`z = self.z()*other.x() - self.x()*other.z()`. -/
def XYZVec.cross_prod {T : Type} [Mul T] [Sub T] (v other : XYZVec T) : XYZVec T :=
  let x := v.x * other.y - v.y * other.x
  let y := v.y * other.z - v.z * other.y
  let z := v.z * other.x - v.x * other.z
  XYZVec.new x y z

/-- `XYZVec::cross_prod_magnitude_sqd` (src/xyz.rs lines 147-149):
`self.cross_prod(other).l2_norm_sqd()`. -/
def XYZVec.cross_prod_magnitude_sqd {T : Type} [Mul T] [Add T] [Sub T]
    (v other : XYZVec T) : T :=
  (v.cross_prod other).l2_norm_sqd

/-- `impl Add for XYZVec<T>` (src/xyz.rs lines 178-187). -/
def XYZVec.add {T : Type} [Add T] (v other : XYZVec T) : XYZVec T :=
  XYZVec.new (v.x + other.x) (v.y + other.y) (v.z + other.z)

/-- `impl AddAssign for XYZVec<T>` (src/xyz.rs lines 189-195), modelled by
explicit state passing as for `XYVec.add_assign`. -/
def XYZVec.add_assign {T : Type} [Add T] (self other : XYZVec T) : XYZVec T :=
  ⟨self.i0 + other.x, self.i1 + other.y, self.i2 + other.z⟩

/-- `XYZVec::iter` (src/xyz.rs lines 173-175). -/
def XYZVec.iter {T : Type} (v : XYZVec T) : List T := [v.i0, v.i1, v.i2]

/-- `impl FromIterator<T> for XYZVec<T>` (src/xyz.rs lines 262-270):
three `unwrap`ped `next()` calls; panicking is modelled as `none`. -/
def XYZVec.from_iter {T : Type} (l : List T) : Option (XYZVec T) :=
  match l with
  | x :: y :: z :: _ => some (XYZVec.new x y z)
  | _ => none

/-!
A scalar model of IEEE-754 floating point capturing the special-value behavior
the spec talks about (division by zero, NaN propagation, NaN-is-not-equal-to-
itself). Finite values carry an exact rational; rounding and signed zero are
not modelled because every claim proved below only exercises exact operations
(multiplication by 0, addition of 0, 0/0) and special-value propagation, where
IEEE arithmetic is exact.
-/

/-- A floating-point value: finite (exact rational), +∞, −∞, or NaN. -/
inductive FVal where
  | fin : ℚ → FVal
  | inf : FVal
  | ninf : FVal
  | nan : FVal
deriving DecidableEq

/-- IEEE addition on `FVal`: NaN absorbs, ∞ + (−∞) = NaN, finite is exact. -/
def FVal.fadd : FVal → FVal → FVal
  | .nan, _ => .nan
  | _, .nan => .nan
  | .fin a, .fin b => .fin (a + b)
  | .fin _, .inf => .inf
  | .inf, .fin _ => .inf
  | .fin _, .ninf => .ninf
  | .ninf, .fin _ => .ninf
  | .inf, .inf => .inf
  | .ninf, .ninf => .ninf
  | .inf, .ninf => .nan
  | .ninf, .inf => .nan

/-- IEEE multiplication on `FVal`: NaN absorbs, 0 · ±∞ = NaN, finite is exact. -/
def FVal.fmul : FVal → FVal → FVal
  | .nan, _ => .nan
  | _, .nan => .nan
  | .fin a, .fin b => .fin (a * b)
  | .fin a, .inf => if 0 < a then .inf else if a < 0 then .ninf else .nan
  | .inf, .fin a => if 0 < a then .inf else if a < 0 then .ninf else .nan
  | .fin a, .ninf => if 0 < a then .ninf else if a < 0 then .inf else .nan
  | .ninf, .fin a => if 0 < a then .ninf else if a < 0 then .inf else .nan
  | .inf, .inf => .inf
  | .inf, .ninf => .ninf
  | .ninf, .inf => .ninf
  | .ninf, .ninf => .inf

/-- IEEE division on `FVal`: NaN absorbs, x/0 is ±∞ for finite nonzero x and
NaN for x = 0, finite/∞ = 0, ∞/∞ = NaN. -/
def FVal.fdiv : FVal → FVal → FVal
  | .nan, _ => .nan
  | _, .nan => .nan
  | .fin a, .fin b =>
      if b = 0 then (if a = 0 then .nan else if 0 < a then .inf else .ninf)
      else .fin (a / b)
  | .inf, .fin b => if b < 0 then .ninf else .inf
  | .ninf, .fin b => if b < 0 then .inf else .ninf
  | .fin _, .inf => .fin 0
  | .fin _, .ninf => .fin 0
  | .inf, .inf => .nan
  | .inf, .ninf => .nan
  | .ninf, .inf => .nan
  | .ninf, .ninf => .nan

/-- IEEE `==` (`PartialEq` on f32/f64): NaN compares unequal to everything,
including itself. -/
def FVal.feq : FVal → FVal → Bool
  | .fin a, .fin b => decide (a = b)
  | .inf, .inf => true
  | .ninf, .ninf => true
  | _, _ => false

instance : Add FVal := ⟨FVal.fadd⟩

instance : Mul FVal := ⟨FVal.fmul⟩

instance : Div FVal := ⟨FVal.fdiv⟩

/-- Whether an `FVal` is NaN. -/
def FVal.isNaN : FVal → Bool
  | .nan => true
  | _ => false

/-- `XYVec::<f32>::zeroes` / `XYVec::<f64>::zeroes` (src/xy.rs lines 251-253,
270-272): `inner: [0.0; 2]`. -/
def XYVec.zeroes : XYVec FVal := XYVec.new (.fin 0) (.fin 0)

/-- The derived `PartialEq` on `XYVec<T>` at float scalars: componentwise
IEEE `==` on the two slots. -/
def XYVec.feq (v w : XYVec FVal) : Bool :=
  FVal.feq v.i0 w.i0 && FVal.feq v.i1 w.i1

/-- The derived `PartialEq` on `XYZVec<T>` at float scalars. -/
def XYZVec.feq (v w : XYZVec FVal) : Bool :=
  FVal.feq v.i0 w.i0 && FVal.feq v.i1 w.i1 && FVal.feq v.i2 w.i2

/-- Whether some component of a float `XYVec` is NaN. -/
def XYVec.hasNaN (v : XYVec FVal) : Bool := v.i0.isNaN || v.i1.isNaN

/-! Helper lemmas shared by several claims. -/

/-- Unfolds `*` on `FVal` to `FVal.fmul`. -/
theorem FVal.mul_def (a b : FVal) : a * b = FVal.fmul a b := rfl

/-- Unfolds `+` on `FVal` to `FVal.fadd`. -/
theorem FVal.add_def (a b : FVal) : a + b = FVal.fadd a b := rfl

/-- Unfolds `/` on `FVal` to `FVal.fdiv`. -/
theorem FVal.div_def (a b : FVal) : a / b = FVal.fdiv a b := rfl

/-- IEEE addition on the `FVal` model is commutative (as a value; `==` on the
results is a separate matter when NaN appears). -/
theorem FVal.fadd_comm (a b : FVal) : FVal.fadd a b = FVal.fadd b a := by
  cases a <;> cases b <;> simp [FVal.fadd, add_comm]

/-- IEEE `==` on equal arguments holds exactly when the value is not NaN. -/
theorem FVal.feq_self (a : FVal) : FVal.feq a a = !a.isNaN := by
  cases a <;> simp [FVal.feq, FVal.isNaN]

/-! The claims. -/

/-- C1, as stated, is false of the code: at `v = (1, 2, −1/2)`,
`w = (−2, 1/2, 0)` the x-component of `v.cross_prod(w)` is `9/2`, not the
claimed `y·oz − z·oy = 1/4` (the code places each standard cross-product
formula one slot away from where the claim puts it). -/
theorem c1_cross_prod_claim_false :
    ¬ ((XYZVec.new (1 : ℚ) 2 (-1/2)).cross_prod (XYZVec.new (-2) (1/2) 0)).x
      = (XYZVec.new (1 : ℚ) 2 (-1/2)).y * (XYZVec.new (-2 : ℚ) (1/2) 0).z
        - (XYZVec.new (1 : ℚ) 2 (-1/2)).z * (XYZVec.new (-2 : ℚ) (1/2) 0).y := by
  norm_num [XYZVec.cross_prod, XYZVec.new, XYZVec.x, XYZVec.y, XYZVec.z]

/-- C1 (amended): for every scalar type and all `v`, `w`, `v.cross_prod(w)`
returns the Vec3 whose components are
`(x·oy − y·ox, y·oz − z·oy, z·ox − x·oz)`: the three standard cross-product
component formulas cyclically shifted one slot (the standard z-component
formula lands in slot x, the standard x-component formula in slot y, the
standard y-component formula in slot z). -/
theorem c1_cross_prod_components {T : Type} [Mul T] [Sub T] (v w : XYZVec T) :
    v.cross_prod w =
      XYZVec.new (v.x * w.y - v.y * w.x) (v.y * w.z - v.z * w.y)
        (v.z * w.x - v.x * w.z) := rfl

/-- C2: at `v = (1, 0)`, `θ = π/2` (real-valued model of the float scalars),
the f64 body returns `(0, 1)` — the standard rotation the claim states — but
the f32 body returns `(−1, 1)`, the rotated vector minus the original. -/
theorem c2_rotated_by_pi_div_two :
    XYVec.rotated_by_f64 Real.cos Real.sin (XYVec.new 1 0) (Real.pi / 2) =
        XYVec.new 0 1 ∧
    XYVec.rotated_by_f32 Real.cos Real.sin (XYVec.new 1 0) (Real.pi / 2) =
        XYVec.new (-1) 1 :=
  ⟨by
    simp [XYVec.rotated_by_f64, XYVec.new, XYVec.x, XYVec.y,
      Real.cos_pi_div_two, Real.sin_pi_div_two],
   by
    simp [XYVec.rotated_by_f32, XYVec.new, XYVec.x, XYVec.y,
      Real.cos_pi_div_two, Real.sin_pi_div_two]⟩

/-- C3: building a vector from a sequence returns `none` (the model of the
`unwrap` panic) when the sequence yields fewer than 2 (Vec2) resp. 3 (Vec3)
elements, and otherwise the vector of the first 2 resp. 3 elements in order,
with any further elements ignored. -/
theorem c3_from_iter_arity (T : Type) :
    (∀ l : List T, l.length < 2 → XYVec.from_iter l = none) ∧
    (∀ (x y : T) (rest : List T),
      XYVec.from_iter (x :: y :: rest) = some (XYVec.new x y)) ∧
    (∀ l : List T, l.length < 3 → XYZVec.from_iter l = none) ∧
    (∀ (x y z : T) (rest : List T),
      XYZVec.from_iter (x :: y :: z :: rest) = some (XYZVec.new x y z)) := by
  refine ⟨?_, fun x y rest => rfl, ?_, fun x y z rest => rfl⟩
  · intro l h
    match l with
    | [] => rfl
    | [_] => rfl
    | _ :: _ :: _ => exact absurd h (by simp only [List.length_cons]; omega)
  · intro l h
    match l with
    | [] => rfl
    | [_] => rfl
    | [_, _] => rfl
    | _ :: _ :: _ :: _ => exact absurd h (by simp only [List.length_cons]; omega)

/-- Witness for C3 at concrete inputs over `ℤ`. -/
theorem c3_from_iter_arity_witness :
    XYVec.from_iter ([5] : List ℤ) = none ∧
    XYVec.from_iter ([5, 6, 7] : List ℤ) = some (XYVec.new 5 6) ∧
    XYZVec.from_iter ([5, 6] : List ℤ) = none ∧
    XYZVec.from_iter ([5, 6, 7, 8] : List ℤ) = some (XYZVec.new 5 6 7) :=
  ⟨(c3_from_iter_arity ℤ).1 [5] (by decide),
   (c3_from_iter_arity ℤ).2.1 5 6 [7],
   (c3_from_iter_arity ℤ).2.2.1 [5, 6] (by decide),
   (c3_from_iter_arity ℤ).2.2.2 5 6 7 [8]⟩

/-- C4: at `v = (1, 2, −0.5)`, `w = (−2, 0.5, 0)` (exact values, so the float
computation is exact), `v.cross_prod(w) = (4.5, 0.25, 1)`,
`v.dot_prod(w) = −1`, and `v.cross_prod_magnitude_sqd(w) = 21.3125`. -/
theorem c4_concrete_3d :
    (XYZVec.new (1 : ℚ) 2 (-0.5)).cross_prod (XYZVec.new (-2) 0.5 0) =
        XYZVec.new 4.5 0.25 1 ∧
    (XYZVec.new (1 : ℚ) 2 (-0.5)).dot_prod (XYZVec.new (-2) 0.5 0) = -1 ∧
    (XYZVec.new (1 : ℚ) 2 (-0.5)).cross_prod_magnitude_sqd
        (XYZVec.new (-2) 0.5 0) = 21.3125 := by
  refine ⟨?_, ?_, ?_⟩ <;>
    norm_num [XYZVec.cross_prod, XYZVec.dot_prod,
      XYZVec.cross_prod_magnitude_sqd, XYZVec.l2_norm_sqd, XYZVec.new,
      XYZVec.x, XYZVec.y, XYZVec.z, XYZVec.mk.injEq]

/-- C5 fails on the code: at the spec's own concrete inputs
`v = (1, 2, −0.5)`, `w = (−2, 0.5, 0)`, `v.dot_prod(v.cross_prod(w)) = 4.5`,
not `0` — the slot-shifted cross product (see C1) is not orthogonal to `v`. -/
theorem c5_orthogonality_fails :
    (XYZVec.new (1 : ℚ) 2 (-0.5)).dot_prod
        ((XYZVec.new (1 : ℚ) 2 (-0.5)).cross_prod (XYZVec.new (-2) 0.5 0)) =
      4.5 ∧ (4.5 : ℚ) ≠ 0 := by
  constructor
  · norm_num [XYZVec.cross_prod, XYZVec.dot_prod, XYZVec.new, XYZVec.x,
      XYZVec.y, XYZVec.z]
  · norm_num

/-- C6: `scalar_projected_on` computes `dot_prod(self, other) / dot_prod(other,
other)`, and on the float model projecting any vector onto the zero vector
yields NaN — IEEE's own invalid-result value (`0/0` after the dot products),
not an error: the function is total on `FVal`. -/
theorem c6_scalar_projected_on (v w : XYVec FVal) :
    v.scalar_projected_on w = (v.dot_prod w) / (w.dot_prod w) ∧
    v.scalar_projected_on XYVec.zeroes = FVal.nan := by
  refine ⟨rfl, ?_⟩
  obtain ⟨a, b⟩ := v
  cases a <;> cases b <;>
    simp [XYVec.scalar_projected_on, XYVec.dot_prod, XYVec.zeroes, XYVec.new,
      XYVec.x, XYVec.y, FVal.mul_def, FVal.add_def, FVal.div_def, FVal.fmul,
      FVal.fadd, FVal.fdiv]

/-- Witness for C6 at a concrete vector. -/
theorem c6_scalar_projected_on_witness :
    (XYVec.new (FVal.fin 1) (FVal.fin 2)).scalar_projected_on XYVec.zeroes =
      FVal.nan :=
  (c6_scalar_projected_on (XYVec.new (FVal.fin 1) (FVal.fin 2))
    XYVec.zeroes).2

/-- C7: `l1_norm` is the plain signed sum of components (`x + y` for Vec2,
`x + y + z` for Vec3), `sum` is identical to it on every input, and the signed
sum differs from the absolute-value sum (at `(1, −1)` it is `0`, not `2`). -/
theorem c7_l1_norm_signed_sum :
    (∀ (T : Type) [Add T] (v : XYVec T),
      v.l1_norm = v.x + v.y ∧ v.sum = v.l1_norm) ∧
    (∀ (T : Type) [Add T] (v : XYZVec T),
      v.l1_norm = v.x + v.y + v.z ∧ v.sum = v.l1_norm) ∧
    (XYVec.new (1 : ℚ) (-1)).l1_norm = 0 ∧
    (XYVec.new (1 : ℚ) (-1)).l1_norm ≠ |(1 : ℚ)| + |(-1 : ℚ)| := by
  refine ⟨fun T _ v => ⟨rfl, rfl⟩, fun T _ v => ⟨rfl, rfl⟩, ?_, ?_⟩ <;>
    norm_num [XYVec.l1_norm, XYVec.new, XYVec.x, XYVec.y]

/-- C8: collecting a vector's iterated components back into a vector of the
same type yields the original vector (and in particular never hits the
too-few-elements panic). -/
theorem c8_round_trip (T : Type) (v : XYVec T) (w : XYZVec T) :
    XYVec.from_iter v.iter = some v ∧ XYZVec.from_iter w.iter = some w :=
  ⟨rfl, rfl⟩

/-- C9, as stated, fails on float scalars: with `v = (NaN, 0)` and
`w = (0, 0)`, the componentwise `==` comparison of `v + w` with `w + v` is
false, because the NaN component compares unequal to itself. -/
theorem c9_add_comm_eq_fails_on_nan :
    XYVec.feq
        (XYVec.add (XYVec.new FVal.nan (FVal.fin 0))
          (XYVec.new (FVal.fin 0) (FVal.fin 0)))
        (XYVec.add (XYVec.new (FVal.fin 0) (FVal.fin 0))
          (XYVec.new FVal.nan (FVal.fin 0)))
      = false := rfl

/-- C9 (amended): `v + w` and `w + v` are identical vectors for every
commutative scalar type (Vec2 and Vec3) and on the float model; the
componentwise `==` comparison of `v + w` with `w + v` additionally holds
exactly when no component of the sum is NaN (so always for fixed-point
scalars, and for float vectors whose sum is NaN-free). -/
theorem c9_add_comm_amended :
    (∀ (T : Type) [AddCommMonoid T] (v w : XYVec T),
      XYVec.add v w = XYVec.add w v) ∧
    (∀ (T : Type) [AddCommMonoid T] (v w : XYZVec T),
      XYZVec.add v w = XYZVec.add w v) ∧
    (∀ v w : XYVec FVal, XYVec.add v w = XYVec.add w v) ∧
    (∀ v w : XYVec FVal,
      XYVec.feq (XYVec.add v w) (XYVec.add w v) = true ↔
        (XYVec.add v w).hasNaN = false) := by
  have hcomm : ∀ v w : XYVec FVal, XYVec.add v w = XYVec.add w v := by
    intro v w
    simp [XYVec.add, XYVec.new, XYVec.x, XYVec.y, FVal.add_def,
      FVal.fadd_comm (v.i0) (w.i0), FVal.fadd_comm (v.i1) (w.i1)]
  refine ⟨?_, ?_, hcomm, ?_⟩
  · intro T _ v w
    simp [XYVec.add, XYVec.new, XYVec.x, XYVec.y, add_comm]
  · intro T _ v w
    simp [XYZVec.add, XYZVec.new, XYZVec.x, XYZVec.y, XYZVec.z, add_comm]
  · intro v w
    rw [← hcomm v w]
    cases h : XYVec.add v w with
    | mk a b =>
        cases a <;> cases b <;>
          simp [XYVec.feq, XYVec.hasNaN, FVal.feq, FVal.isNaN]

/-- Witness for C9 (amended) at concrete inputs. -/
theorem c9_add_comm_amended_witness :
    XYVec.add (XYVec.new (1 : ℤ) 2) (XYVec.new 3 4) =
        XYVec.add (XYVec.new 3 4) (XYVec.new (1 : ℤ) 2) ∧
    (XYVec.feq
        (XYVec.add (XYVec.new (FVal.fin 1) (FVal.fin 2))
          (XYVec.new (FVal.fin 3) (FVal.fin 4)))
        (XYVec.add (XYVec.new (FVal.fin 3) (FVal.fin 4))
          (XYVec.new (FVal.fin 1) (FVal.fin 2))) = true ↔
      (XYVec.add (XYVec.new (FVal.fin 1) (FVal.fin 2))
          (XYVec.new (FVal.fin 3) (FVal.fin 4))).hasNaN = false) :=
  ⟨c9_add_comm_amended.1 ℤ (XYVec.new 1 2) (XYVec.new 3 4),
   c9_add_comm_amended.2.2.2 (XYVec.new (FVal.fin 1) (FVal.fin 2))
     (XYVec.new (FVal.fin 3) (FVal.fin 4))⟩

/-- C10: the in-place `+=` (modelled by explicit state passing: it consumes
the receiver and returns its new value, the argument being an untouched copy)
produces exactly the vector `v + w` computed by the out-of-place operator,
for Vec2 and Vec3 over every scalar type. -/
theorem c10_add_assign_agrees (T : Type) [Add T] (v w : XYVec T)
    (u t : XYZVec T) :
    XYVec.add_assign v w = XYVec.add v w ∧
    XYZVec.add_assign u t = XYZVec.add u t :=
  ⟨rfl, rfl⟩
